import Mathlib

/-!
Verification of the `provision` macOS host-provisioning tool.

The development shallowly embeds the Python sources (`provision/utils.py`,
`provision/macos.py`, `provision/steps.py`, `provision/cli.py`).  Every
provisioning function is modelled as a pure Lean function from a `World`
(the outcomes of all read-only probes: which executables exist, what each
external status command prints, which files exist, the environment
variables) to a `Trace` of observable events: external commands invoked
(`Event.run`), informational log lines (`Event.info`, Python `log_info`)
and action log lines (`Event.action`, Python `log_action`).  Commands are
classified read-only or mutating by `Cmd.mutating`.  Functions that can
raise an uncaught exception return a `Res` (a trace plus an optional
error); exceptions that the Python code catches locally are modelled by
`Option`-valued probe outputs in the `World`.
-/

/-- One external command invocation appearing in the sources, with the
arguments that vary.  Read-only versus mutating is judged per command by
`Cmd.mutating` below. -/
inductive Cmd where
  | curlHomebrewScript
  | bashRunInstallScript
  | brewBundle (file : String)
  | tailscaleVersion
  | curlLatestRelease
  | goEnvGopath
  | goInstallTailscale
  | which (bin : String)
  | sudoInstallSystemDaemon (path : String)
  | networksetupListHardware
  | networksetupGetDns (iface : String)
  | sudoNetworksetupSetDns (iface : String) (servers : List String)
  | sudoMkdirAs (user dir : String)
  | writePlist (path : String)
  | sudoChown (owner path : String)
  | launchctlList
  | sudoLaunchctlLoadAs (user path : String)
  | brewInstall (pkg : String)
  | brewServicesList
  | brewServicesStart (svc : String)
  | colimaStatus
  | sudoFdesetupStatus
  | sudoFdesetupDisable
  | sudoSystemsetupGetRemoteLogin
  | sudoSystemsetupSetRemoteLoginOff
  | socketfilterGetGlobalState
  | socketfilterSet (opt val : String)
  | socketfilterListApps
  | socketfilterAdd (path : String)
  | socketfilterUnblock (path : String)
  | sudoLaunchctlList
  | sudoLaunchctlLoadScreenSharing
  | pmsetG
  | pmsetSet (setting : String)
  | dockerPs
  | dockerComposeLs
  | tailscaleStatus
  deriving DecidableEq, Repr

/-- Classification of each external command: `true` when the invocation
changes host state, `false` for pure inspection. -/
def Cmd.mutating : Cmd → Bool
  | .curlHomebrewScript => false
  | .tailscaleVersion => false
  | .curlLatestRelease => false
  | .goEnvGopath => false
  | .which _ => false
  | .networksetupListHardware => false
  | .networksetupGetDns _ => false
  | .launchctlList => false
  | .brewServicesList => false
  | .colimaStatus => false
  | .sudoFdesetupStatus => false
  | .sudoSystemsetupGetRemoteLogin => false
  | .socketfilterGetGlobalState => false
  | .socketfilterListApps => false
  | .sudoLaunchctlList => false
  | .pmsetG => false
  | .dockerPs => false
  | .dockerComposeLs => false
  | .tailscaleStatus => false
  | _ => true

/-- Observable event: an external command invocation, a `log_info` line,
or a `log_action` line. -/
inductive Event where
  | run (c : Cmd)
  | info (msg : String)
  | action (msg : String)
  deriving DecidableEq, Repr

abbrev Trace := List Event

/-- An event is a state-changing external invocation. -/
def Event.isMutation : Event → Bool
  | .run c => c.mutating
  | _ => false

/-- An event is an external command invocation (read-only or not). -/
def Event.isRun : Event → Bool
  | .run _ => true
  | _ => false

/-- A trace performs no state-changing invocation: only read-only probe
commands and log notices. -/
def traceReadOnly (t : Trace) : Bool := t.all fun e => !(Event.isMutation e)

/-- Number of state-changing invocations in a trace. -/
def mutationCount (t : Trace) : Nat := (t.filter Event.isMutation).length

/-- Result of a provisioning function that may raise an uncaught
exception: the events emitted before returning or raising, and the
exception message when one was raised. -/
structure Res where
  events : Trace
  err : Option String
  deriving DecidableEq, Repr

/-- A normally-returning result. -/
def Res.ok (t : Trace) : Res := ⟨t, none⟩

/-- Python sequencing of two calls: if the first raised, the second never
runs; otherwise the traces concatenate and the second call decides the
outcome. -/
def Res.seq (a b : Res) : Res :=
  match a.err with
  | some _ => a
  | none => ⟨a.events ++ b.events, b.err⟩

/-- Run an ordered list of phase results: stop at the first phase that
raised, so the events of later phases never appear. -/
def runPhases : List Res → Res
  | [] => ⟨[], none⟩
  | r :: rest =>
    match r.err with
    | some e => ⟨r.events, some e⟩
    | none =>
      let k := runPhases rest
      ⟨r.events ++ k.events, k.err⟩

/-- The outcome of every read-only inspection the tool can perform, plus
the process environment.  A probe output of `none` models the external
command raising (`sh` error), which the Python code catches locally. -/
structure World where
  platform : String
  euid : Nat
  existingCommands : List String
  sudoUser : Option String
  userEnv : Option String
  homeEnv : Option String
  sudoUserHome : String → String
  scriptDir : String
  tailscaleVersionOutput : Option String
  latestReleaseTag : Option String
  daemonPlistExists : Bool
  tailscaledPath : Option String
  hardwarePorts : String
  getDnsOutput : String → Option String
  launchAgentsDirExists : Bool
  tmuxPath : Option String
  tmuxPlistExists : Bool
  launchctlListOutput : Option String
  tmuxEnv : Option String
  brewServicesListOutput : Option String
  brewServicesStartOk : Bool
  colimaRunning : Bool
  fdesetupStatus : Option String
  remoteLoginStatus : Option String
  firewallGlobalState : Option String
  firewallListApps : Option String
  sudoLaunchctlListOutput : Option String
  pmsetOutput : Option String
  dockerHost : Option String
  dockerPsOk : Bool
  dockerComposeOk : Bool
  tailscaleStatusOutput : Option String

/-- A default world: macOS, root, nothing installed, every probe that can
fail fails, empty environment. -/
def W0 : World where
  platform := "Darwin"
  euid := 0
  existingCommands := []
  sudoUser := none
  userEnv := none
  homeEnv := none
  sudoUserHome := fun u => "/Users/" ++ u
  scriptDir := "/opt/provision"
  tailscaleVersionOutput := none
  latestReleaseTag := none
  daemonPlistExists := false
  tailscaledPath := none
  hardwarePorts := ""
  getDnsOutput := fun _ => none
  launchAgentsDirExists := false
  tmuxPath := none
  tmuxPlistExists := false
  launchctlListOutput := none
  tmuxEnv := none
  brewServicesListOutput := none
  brewServicesStartOk := false
  colimaRunning := false
  fdesetupStatus := none
  remoteLoginStatus := none
  firewallGlobalState := none
  firewallListApps := none
  sudoLaunchctlListOutput := none
  pmsetOutput := none
  dockerHost := none
  dockerPsOk := false
  dockerComposeOk := false
  tailscaleStatusOutput := none

/-- Does the char list `pre` lead the char list `l` (Python `startswith`
on a suffix)? -/
def leadsWith : List Char → List Char → Bool
  | [], _ => true
  | _ :: _, [] => false
  | a :: as, b :: bs => a == b && leadsWith as bs

/-- Does `needle` occur as a contiguous run inside `hay` (char lists)? -/
def subOccurs (needle : List Char) : List Char → Bool
  | [] => needle.isEmpty
  | c :: rest => leadsWith needle (c :: rest) || subOccurs needle rest

/-- Python `needle in hay` substring containment. -/
def strContains (hay needle : String) : Bool := subOccurs needle.data hay.data

/-- Python whitespace (the class `\s` and what `str.strip()` removes). -/
def isPyWs (c : Char) : Bool :=
  c = ' ' || c = '\t' || c = '\n' || c = '\r' || c = '\x0b' || c = '\x0c'

/-- Python `str.strip()` on a char list. -/
def stripChars (cs : List Char) : List Char :=
  ((cs.dropWhile isPyWs).reverse.dropWhile isPyWs).reverse

/-- Python `str.split('\n')` on a char list (accumulator holds the
current fragment reversed). -/
def splitLinesAux (acc : List Char) : List Char → List String
  | [] => [String.mk acc.reverse]
  | c :: rest =>
    if c = '\n' then String.mk acc.reverse :: splitLinesAux [] rest
    else splitLinesAux (c :: acc) rest

/-- Python `str.split('\n')`. -/
def splitLines (cs : List Char) : List String := splitLinesAux [] cs

-- ## provision/utils.py

/-- `command_exists`: `shutil.which(command) is not None`. -/
def command_exists (w : World) (command : String) : Bool :=
  w.existingCommands.contains command

/-- `is_root`: `os.geteuid() == 0`. -/
def is_root (w : World) : Bool := w.euid == 0

/-- `get_real_user`: `os.environ.get('SUDO_USER', os.environ.get('USER', ''))`. -/
def get_real_user (w : World) : String :=
  match w.sudoUser with
  | some su => su
  | none => w.userEnv.getD ""

/-- `get_real_home`: the sudo-invoking user's home when `SUDO_USER` is
set and non-empty, else `$HOME` (default `""`). -/
def get_real_home (w : World) : String :=
  let sudo_user := w.sudoUser.getD ""
  if sudo_user ≠ "" then w.sudoUserHome sudo_user
  else w.homeEnv.getD ""

-- ## provision/macos.py : Tailscale version probes

/-- Parse `\d+\.\d+\.\d+` at the head of a char list (each `\d+` taking
a maximal digit run, as the regex does here since `.` is not a digit);
returns the matched version token. -/
def parseSemver (cs : List Char) : Option String :=
  let d1 := cs.takeWhile Char.isDigit
  let r1 := cs.dropWhile Char.isDigit
  if d1.isEmpty then none else
  match r1 with
  | '.' :: r2 =>
    let d2 := r2.takeWhile Char.isDigit
    let r3 := r2.dropWhile Char.isDigit
    if d2.isEmpty then none else
    match r3 with
    | '.' :: r4 =>
      let d3 := r4.takeWhile Char.isDigit
      if d3.isEmpty then none else
      some (String.mk (d1 ++ '.' :: d2 ++ '.' :: d3))
    | _ => none
  | _ => none

/-- `re.search(r'/v(\d+\.\d+\.\d+)', output)`: scan left to right for
`/v` followed by a semantic-version token; return the captured group. -/
def searchVersion : List Char → Option String
  | [] => none
  | c :: rest =>
    if c = '/' then
      match rest with
      | 'v' :: tail =>
        match parseSemver tail with
        | some v => some v
        | none => searchVersion rest
      | _ => searchVersion rest
    else searchVersion rest

/-- `get_installed_tailscale_version`: run `tailscale version` (output in
the world, `none` when the command raises) and extract the version token;
`None` when absent or on error. -/
def get_installed_tailscale_version (w : World) : Option String :=
  match w.tailscaleVersionOutput with
  | none => none
  | some output => searchVersion output.data

/-- `get_latest_tailscale_version`: the GitHub release `tag_name`
(`none` in the world models the fetch/JSON-parse raising), with a leading
`v` stripped; an empty tag yields `None`. -/
def get_latest_tailscale_version (w : World) : Option String :=
  match w.latestReleaseTag with
  | none => none
  | some tag =>
    match tag.data with
    | 'v' :: rest => some (String.mk rest)
    | [] => none
    | _ => some tag

/-- `is_tailscale_up_to_date`: `False` when the installed version cannot
be determined; `True` when the latest cannot be determined; equality of
the two version strings otherwise. -/
def is_tailscale_up_to_date (w : World) : Bool :=
  match get_installed_tailscale_version w with
  | none => false
  | some installed =>
    match get_latest_tailscale_version w with
    | none => true
    | some latest => installed == latest

/-- The external commands `is_tailscale_up_to_date` issues: it always
runs `tailscale version`; it fetches the latest release only when the
installed version parsed. -/
def tailscaleVersionProbe (w : World) : Trace :=
  match get_installed_tailscale_version w with
  | none => [.run .tailscaleVersion]
  | some _ => [.run .tailscaleVersion, .run .curlLatestRelease]

-- ## provision/macos.py : guarded actions

/-- `check_homebrew`: `command_exists('brew')`. -/
def check_homebrew (w : World) : Bool := command_exists w "brew"

/-- `install_homebrew`: no-op notice when Homebrew is present; dry-run
preview; otherwise fetch the install script and run it. -/
def install_homebrew (w : World) (dry_run : Bool) : Trace :=
  if check_homebrew w then [.info "Homebrew is already installed."]
  else if dry_run then [.action "[DRY RUN] Would install Homebrew"]
  else [.action "Homebrew not found. Installing Homebrew...",
        .run .curlHomebrewScript, .run .bashRunInstallScript]

/-- `install_brewfile_packages`: dry-run preview, else unconditionally
run `brew bundle --file=<path>` (the function performs no probe). -/
def install_brewfile_packages (brewfile_path : String) (dry_run : Bool) : Trace :=
  if dry_run then
    [.action ("[DRY RUN] Would install packages from " ++ brewfile_path)]
  else
    [.action "Installing packages from Brewfile...",
     .run (.brewBundle brewfile_path)]

/-- `check_tailscale`: `command_exists('tailscaled')`. -/
def check_tailscale (w : World) : Bool := command_exists w "tailscaled"

/-- `install_tailscale`: when installed and up to date, a notice only;
when installed but not up to date, update from source (previewed under
dry-run); when absent, install from source (previewed under dry-run). -/
def install_tailscale (w : World) (dry_run : Bool) : Trace :=
  if check_tailscale w then
    if is_tailscale_up_to_date w then
      tailscaleVersionProbe w ++ [.info "Tailscale is already installed and up to date."]
    else if dry_run then
      tailscaleVersionProbe w ++ [.action "[DRY RUN] Would update Tailscale from source"]
    else
      tailscaleVersionProbe w ++
        [.action "Tailscale is outdated. Updating from source...",
         .run .goEnvGopath, .run .goInstallTailscale]
  else
    if dry_run then [.action "[DRY RUN] Would install Tailscale from source"]
    else [.action "tailscaled not found. Installing Tailscale from source...",
          .run .goEnvGopath, .run .goInstallTailscale]

/-- `get_tailscaled_path`: `which tailscaled`, `None` when it raises. -/
def get_tailscaled_path (w : World) : Option String := w.tailscaledPath

/-- `install_tailscale_daemon`: no-op notice when the LaunchDaemons plist
exists; dry-run preview; else locate `tailscaled` (raising when absent)
and run `sudo tailscaled install-system-daemon`. -/
def install_tailscale_daemon (w : World) (dry_run : Bool) : Res :=
  if w.daemonPlistExists then
    .ok [.info "Tailscale system daemon is already installed."]
  else if dry_run then
    .ok [.action "[DRY RUN] Would install Tailscale system daemon"]
  else
    let tp := (get_tailscaled_path w).getD ""
    if tp = "" then
      ⟨[.run (.which "tailscaled")], some "tailscaled binary not found"⟩
    else
      ⟨[.run (.which "tailscaled"),
        .action "Tailscale system daemon not found. Installing...",
        .run (.sudoInstallSystemDaemon tp)], none⟩

/-- The MagicDNS sentinel resolver address. -/
def TAILSCALE_DNS : String := "100.100.100.100"

/-- One iteration of `configure_tailscale_dns`'s interface loop: skip
interfaces absent from the hardware-port listing; skip (with a notice)
when the sentinel already occurs in the current DNS output; preview under
dry-run; else re-read the resolver list, prepend the sentinel and write
it back.  A raising `-getdnsservers` is caught and the interface skipped. -/
def dnsForInterface (w : World) (dry_run : Bool) (iface : String) : Trace :=
  if !(strContains w.hardwarePorts ("Hardware Port: " ++ iface)) then []
  else
    match w.getDnsOutput iface with
    | none => [.run (.networksetupGetDns iface)]
    | some current_dns =>
      if strContains current_dns TAILSCALE_DNS then
        [.run (.networksetupGetDns iface),
         .info ("Tailscale DNS already configured for " ++ iface ++ ".")]
      else if dry_run then
        [.run (.networksetupGetDns iface),
         .action ("[DRY RUN] Would configure Tailscale DNS for " ++ iface)]
      else
        let current_dns_list :=
          match w.getDnsOutput iface with
          | none => []
          | some dns_output =>
            if !(strContains dns_output "There aren\x27t any")
                && !(stripChars dns_output.data).isEmpty then
              splitLines (stripChars dns_output.data)
            else []
        [.run (.networksetupGetDns iface), .run (.networksetupGetDns iface),
         .action ("Adding Tailscale DNS to " ++ iface ++ "..."),
         .run (.sudoNetworksetupSetDns iface (TAILSCALE_DNS :: current_dns_list))]

/-- `configure_tailscale_dns`: list hardware ports, then handle the
`Wi-Fi` and `Ethernet` interfaces in turn. -/
def configure_tailscale_dns (w : World) (dry_run : Bool) : Trace :=
  .run .networksetupListHardware ::
    (dnsForInterface w dry_run "Wi-Fi" ++ dnsForInterface w dry_run "Ethernet")

/-- `setup_tmux_service`: a dry run previews and returns at once; a real
run is skipped (with a notice) for an empty or root real user, otherwise
it ensures the LaunchAgents directory, locates `tmux` (raising when
absent), writes the plist from the template when missing, fixes its
ownership and loads the agent when not yet listed. -/
def setup_tmux_service (w : World) (dry_run : Bool) : Res :=
  if dry_run then .ok [.action "[DRY RUN] Would setup tmux service"]
  else
    let real_user := get_real_user w
    let real_home := get_real_home w
    if real_user = "" ∨ real_user = "root" then
      .ok [.info "Skipping tmux service for root user."]
    else
      let launch_agents_dir := real_home ++ "/Library/LaunchAgents"
      let plist_path := launch_agents_dir ++ "/com.tmux.main.plist"
      let t0 : Trace := [.info ("Setting up tmux service for user: " ++ real_user)]
      let t1 : Trace :=
        if !w.launchAgentsDirExists then
          [.action "Creating LaunchAgents directory...",
           .run (.sudoMkdirAs real_user launch_agents_dir)]
        else []
      match w.tmuxPath with
      | none => ⟨t0 ++ t1 ++ [.run (.which "tmux")], some "tmux binary not found"⟩
      | some tmux_path =>
        let t2 : Trace := [.run (.which "tmux"),
                           .info ("Using tmux found at: " ++ tmux_path)]
        let t3 : Trace :=
          if !w.tmuxPlistExists then
            [.action "Creating tmux service plist...",
             .run (.writePlist plist_path),
             .run (.sudoChown (real_user ++ ":staff") plist_path)]
          else [.info "tmux service plist already exists."]
        let t4 : Trace :=
          match w.launchctlListOutput with
          | none => [.run .launchctlList,
                     .action "Failed to load tmux service: error"]
          | some listing =>
            if !(strContains listing "com.tmux.main") then
              [.run .launchctlList, .action "Loading tmux service...",
               .run (.sudoLaunchctlLoadAs real_user plist_path),
               .info "tmux service loaded successfully."]
            else [.run .launchctlList, .info "tmux service is already loaded."]
        ⟨t0 ++ t1 ++ t2 ++ t3 ++ t4, none⟩

/-- Does one line of `brew services list` show colima started? -/
def colimaStartedLine (line : String) : Bool :=
  strContains line "colima" && strContains line "started"

/-- The trailing part of `setup_colima_service` that starts the service
and then polls `colima status` once. -/
def startColimaService (w : World) : Trace :=
  [.action "Starting Colima service via Homebrew services..."] ++
  if w.brewServicesStartOk then
    [.run (.brewServicesStart "colima"), .info "Colima service started successfully."] ++
    (if w.colimaRunning then [.run .colimaStatus, .info "Colima is running."]
     else [.run .colimaStatus,
           .action "WARNING: Colima service started but Colima is not yet ready.",
           .action "It may take a moment to fully initialize."])
  else [.run (.brewServicesStart "colima"),
        .action "Failed to start Colima service: error"]

/-- `setup_colima_service`: a dry run previews and returns at once; a
real run is skipped for an empty or root real user; otherwise it installs
`reattach-to-user-namespace` when inside tmux without it, returns when
`brew services list` already shows colima started, and else starts the
service. -/
def setup_colima_service (w : World) (dry_run : Bool) : Trace :=
  if dry_run then [.action "[DRY RUN] Would setup Colima service"]
  else
    let real_user := get_real_user w
    if real_user = "" ∨ real_user = "root" then
      [.info "Skipping Colima service for root user."]
    else
      [.info "Setting up Colima service..."] ++
      (if (w.tmuxEnv.getD "") ≠ "" && !(command_exists w "reattach-to-user-namespace") then
         [.action "Installing reattach-to-user-namespace for tmux compatibility...",
          .run (.brewInstall "reattach-to-user-namespace")]
       else []) ++
      match w.brewServicesListOutput with
      | none => [.run .brewServicesList] ++ startColimaService w
      | some services_list =>
        if (splitLines services_list.data).any colimaStartedLine then
          [.run .brewServicesList, .info "Colima service is already running."]
        else [.run .brewServicesList] ++ startColimaService w

/-- `manage_filevault`: probe `fdesetup status`; when FileVault is on,
disable it (previewed under dry-run); a raising probe is caught and
logged. -/
def manage_filevault (w : World) (dry_run : Bool) : Trace :=
  match w.fdesetupStatus with
  | none => [.run .sudoFdesetupStatus, .action "Failed to manage FileVault: error"]
  | some status_output =>
    if strContains status_output "FileVault is On" then
      if dry_run then
        [.run .sudoFdesetupStatus, .action "[DRY RUN] Would disable FileVault"]
      else
        [.run .sudoFdesetupStatus,
         .action "FileVault is enabled. Disabling for headless boot...",
         .run .sudoFdesetupDisable]
    else [.run .sudoFdesetupStatus, .info "FileVault is already disabled."]

/-- `disable_ssh`: probe `systemsetup -getremotelogin`; when Remote Login
is on, turn it off (previewed under dry-run); a raising probe is caught
and logged. -/
def disable_ssh (w : World) (dry_run : Bool) : Trace :=
  match w.remoteLoginStatus with
  | none => [.run .sudoSystemsetupGetRemoteLogin, .action "Failed to disable SSH: error"]
  | some status_output =>
    if strContains status_output "Remote Login: On" then
      if dry_run then
        [.run .sudoSystemsetupGetRemoteLogin, .action "[DRY RUN] Would disable SSH (Remote Login)"]
      else
        [.run .sudoSystemsetupGetRemoteLogin,
         .action "Standard SSH (Remote Login) is enabled. Disabling...",
         .run .sudoSystemsetupSetRemoteLoginOff]
    else [.run .sudoSystemsetupGetRemoteLogin,
          .info "Standard SSH (Remote Login) is already disabled."]

/-- One iteration of `configure_firewall`'s exception loop: list the
firewall's applications (a raising call is caught and the service
skipped), add the service when missing, then always unblock it. -/
def firewallServiceException (w : World) (service_path : String) : Trace :=
  match w.firewallListApps with
  | none => [.run .socketfilterListApps]
  | some list_output =>
    [.run .socketfilterListApps] ++
    (if !(strContains list_output service_path) then
       [.action ("Adding firewall exception for: " ++ service_path),
        .run (.socketfilterAdd service_path)]
     else []) ++
    [.run (.socketfilterUnblock service_path)]

/-- The exception-configuration tail of `configure_firewall` (only
reached on a real run): locate `tailscaled`, then walk the service list,
skipping the `tailscaled` entry when its path was not found. -/
def firewallExceptions (w : World) : Trace :=
  [.info "Verifying firewall exceptions for continuity services...",
   .run (.which "tailscaled")] ++
  (if (get_tailscaled_path w).getD "" = "" then
     [.action "WARNING: tailscaled path not found, skipping firewall exception"]
   else []) ++
  ((((if (get_tailscaled_path w).getD "" = "" then []
      else [(get_tailscaled_path w).getD ""]) ++
     ["/System/Library/CoreServices/RemoteManagement/ARDAgent.app",
      "/System/Library/CoreServices/UniversalControl.app",
      "/usr/libexec/sharingd",
      "/usr/libexec/rapportd"]).map (firewallServiceException w)).flatten) ++
  [.info "Firewall exceptions are configured."]

/-- `configure_firewall`: probe the global state (a raising probe is
caught and logged); enable stealth-mode firewalling when disabled
(previewed under dry-run); on a real run also configure the per-service
exceptions. -/
def configure_firewall (w : World) (dry_run : Bool) : Trace :=
  match w.firewallGlobalState with
  | none => [.run .socketfilterGetGlobalState, .action "Failed to configure firewall: error"]
  | some firewall_status =>
    if strContains firewall_status "Firewall is disabled"
        || strContains firewall_status "disabled" then
      if dry_run then
        [.run .socketfilterGetGlobalState,
         .action "[DRY RUN] Would enable and configure firewall"]
      else
        [.run .socketfilterGetGlobalState,
         .action "Firewall is disabled. Enabling firewall...",
         .run (.socketfilterSet "--setglobalstate" "on"),
         .run (.socketfilterSet "--setallowsigned" "on"),
         .run (.socketfilterSet "--setstealthmode" "on")] ++
        firewallExceptions w
    else
      if dry_run then
        [.run .socketfilterGetGlobalState, .info "Firewall is already enabled."]
      else
        [.run .socketfilterGetGlobalState, .info "Firewall is already enabled."] ++
        firewallExceptions w

/-- `enable_screen_sharing`: probe `sudo launchctl list` (a raising probe
is caught and logged); when the screen-sharing job is absent, load it
(previewed under dry-run). -/
def enable_screen_sharing (w : World) (dry_run : Bool) : Trace :=
  match w.sudoLaunchctlListOutput with
  | none => [.run .sudoLaunchctlList, .action "Failed to enable Screen Sharing: error"]
  | some listing =>
    if strContains listing "com.apple.screensharing" then
      [.run .sudoLaunchctlList, .info "Screen Sharing service is already enabled."]
    else if dry_run then
      [.run .sudoLaunchctlList, .action "[DRY RUN] Would enable Screen Sharing service"]
    else
      [.run .sudoLaunchctlList,
       .action "Screen Sharing service is not loaded. Enabling...",
       .run .sudoLaunchctlLoadScreenSharing]

/-- Match `\s*<name>\s+(\d+)` at a position of the subject (the `\s`
runs taken maximally, which agrees with the regex since the setting name
starts with a letter and a digit is not whitespace); returns the captured
digit run. -/
def pmMatchAt (name : List Char) (cs : List Char) : Option String :=
  let rest := cs.dropWhile isPyWs
  if leadsWith name rest then
    let after := rest.drop name.length
    if (after.takeWhile isPyWs).isEmpty then none
    else
      let ds := (after.dropWhile isPyWs).takeWhile Char.isDigit
      if ds.isEmpty then none else some (String.mk ds)
  else none

/-- Positions of the subject right after each newline (the non-initial
positions where a multiline `^` matches). -/
def newlinePositions : List Char → List (List Char)
  | [] => []
  | c :: rest =>
    if c = '\n' then rest :: newlinePositions rest
    else newlinePositions rest

/-- `re.search(r'^\s*<name>\s+(\d+)', output, re.MULTILINE)`: try the
anchored pattern at the start of the subject and after every newline,
left to right. -/
def pmSearch (name : String) (output : String) : Option String :=
  (output.data :: newlinePositions output.data).findSome? (pmMatchAt name.data)

/-- The `changes_needed` list computed by `configure_power_management`:
a setting needs a change when its parsed value is present and not the
string `"0"`. -/
def pm_changes_needed (output : String) : List (String × String) :=
  (match pmSearch "sleep" output with
   | some v => if v ≠ "0" then [("sleep", "Disabling system sleep...")] else []
   | none => []) ++
  (match pmSearch "disksleep" output with
   | some v => if v ≠ "0" then [("disksleep", "Disabling disk sleep...")] else []
   | none => []) ++
  (match pmSearch "powernap" output with
   | some v => if v ≠ "0" then [("powernap", "Disabling Power Nap...")] else []
   | none => [])

/-- The dry-run notices of `configure_power_management`: one preview per
setting present in `changes_needed`. -/
def pm_dry_notices (changes : List (String × String)) : Trace :=
  (if changes.any (fun s => s.1 == "sleep") then
     [Event.action "[DRY RUN] Would disable system sleep"] else []) ++
  (if changes.any (fun s => s.1 == "disksleep") then
     [Event.action "[DRY RUN] Would disable disk sleep"] else []) ++
  (if changes.any (fun s => s.1 == "powernap") then
     [Event.action "[DRY RUN] Would disable Power Nap"] else [])

/-- `configure_power_management`: parse `pmset -g` (a raising probe is
caught and logged); when nothing needs a change, a notice; under dry-run,
one preview per needed change; else apply each change with `pmset -a`. -/
def configure_power_management (w : World) (dry_run : Bool) : Trace :=
  match w.pmsetOutput with
  | none => [.run .pmsetG, .action "Failed to configure power management: error"]
  | some pmset_output =>
    let changes := pm_changes_needed pmset_output
    if changes.isEmpty then
      [.run .pmsetG, .info "Power settings are already configured to prevent sleep."]
    else if dry_run then
      .run .pmsetG :: pm_dry_notices changes
    else
      .run .pmsetG ::
        (changes.map (fun sm => [Event.action sm.2, Event.run (Cmd.pmsetSet sm.1)])).flatten ++
        [.info "Power settings configured to prevent sleep."]

/-- `verify_docker_stack`: read-only verification of the Docker stack:
report `DOCKER_HOST`, then `colima status`, and when colima runs also
`docker ps` and `docker compose ls`. -/
def verify_docker_stack (w : World) : Trace :=
  [.info "Verifying Docker stack..."] ++
  (if (w.dockerHost.getD "") = "" then
     [Event.action "DOCKER_HOST is not set. Please configure your shell as shown at the end of this script."]
   else [Event.info ("DOCKER_HOST is set to: " ++ w.dockerHost.getD "")]) ++
  (if w.colimaRunning then
     [Event.run .colimaStatus, .info "Colima runtime is running."] ++
     (if w.dockerPsOk then [Event.run .dockerPs, .info "Docker daemon is accessible."]
      else [Event.run .dockerPs,
            .action "Docker daemon is not accessible. Check DOCKER_HOST and Colima status."]) ++
     (if w.dockerComposeOk then [Event.run .dockerComposeLs, .info "Docker Compose is working."]
      else [Event.run .dockerComposeLs, .action "Docker Compose is not working properly."])
   else
     [Event.run .colimaStatus,
      .action "Colima is not running. Docker commands will fail until Colima is started.",
      .action "The LaunchAgent may have failed to start Colima automatically.",
      .action "Try running \x27colima start\x27 manually to start the Docker runtime."])

/-- `verify_tailscale_connectivity`: read-only `tailscale status` check
(a raising call is caught and logged), reporting connect instructions
when the session is not active. -/
def verify_tailscale_connectivity (w : World) : Trace :=
  [.info "Verifying Tailscale connectivity..."] ++
  match w.tailscaleStatusOutput with
  | none => [.run .tailscaleStatus, .info "Failed to check Tailscale status: error"]
  | some status_output =>
    if strContains status_output "active" then
      [.run .tailscaleStatus, .info "Tailscale is already active."]
    else
      [.run .tailscaleStatus,
       .info "Tailscale is not connected. The final step is to connect to your Tailnet.",
       .info "Please run the following command and follow the authentication link:",
       .info "\n    sudo tailscale up\n"]

-- ## provision/steps.py

/-- `install_dependencies`: on macOS install Homebrew (skipped under
user-only) and the Brewfile packages; other platforms raise. -/
def install_dependencies (w : World) (dry_run user_only : Bool) : Res :=
  if w.platform = "Darwin" then
    .ok ([.info "Installing dependencies for macOS..."] ++
      (if !user_only then install_homebrew w dry_run else []) ++
      install_brewfile_packages (w.scriptDir ++ "/macos/Brewfile") dry_run)
  else ⟨[], some ("Platform " ++ w.platform ++ " is not supported yet")⟩

/-- `setup_tailscale`: on macOS install the client, then (unless
user-only) the system daemon and the DNS configuration; other platforms
raise. -/
def setup_tailscale (w : World) (dry_run user_only : Bool) : Res :=
  if w.platform = "Darwin" then
    let t0 : Trace := .info "Setting up Tailscale for macOS..." :: install_tailscale w dry_run
    if !user_only then
      let r := install_tailscale_daemon w dry_run
      match r.err with
      | some e => ⟨t0 ++ r.events, some e⟩
      | none => ⟨t0 ++ r.events ++ configure_tailscale_dns w dry_run, none⟩
    else ⟨t0, none⟩
  else ⟨[], some ("Platform " ++ w.platform ++ " is not supported yet")⟩

/-- `configure_services`: on macOS run the tmux and colima service
setups (both user-level, so user-only does not filter them); other
platforms raise. -/
def configure_services (w : World) (dry_run user_only : Bool) : Res :=
  if w.platform = "Darwin" then
    let r := setup_tmux_service w dry_run
    match r.err with
    | some e => ⟨.info "Configuring services for macOS..." :: r.events, some e⟩
    | none => ⟨.info "Configuring services for macOS..." :: r.events ++
                 setup_colima_service w dry_run, none⟩
  else ⟨[], some ("Platform " ++ w.platform ++ " is not supported yet")⟩

/-- `configure_security`: on macOS, skipped whole under user-only with a
single notice; else FileVault, SSH and firewall handling; other
platforms raise. -/
def configure_security (w : World) (dry_run user_only : Bool) : Res :=
  if w.platform = "Darwin" then
    if user_only then
      .ok [.info "Skipping security configuration in user-only mode (requires root)."]
    else
      .ok ([.info "Configuring security settings for macOS..."] ++
        manage_filevault w dry_run ++ disable_ssh w dry_run ++ configure_firewall w dry_run)
  else ⟨[], some ("Platform " ++ w.platform ++ " is not supported yet")⟩

/-- `configure_system`: on macOS, skipped whole under user-only with a
single notice; else screen sharing and power management; other platforms
raise. -/
def configure_system (w : World) (dry_run user_only : Bool) : Res :=
  if w.platform = "Darwin" then
    if user_only then
      .ok [.info "Skipping system configuration in user-only mode (requires root)."]
    else
      .ok ([.info "Configuring system settings for macOS..."] ++
        enable_screen_sharing w dry_run ++ configure_power_management w dry_run)
  else ⟨[], some ("Platform " ++ w.platform ++ " is not supported yet")⟩

/-- `verify_system`: on macOS the read-only verification phase; other
platforms raise. -/
def verify_system (w : World) : Res :=
  if w.platform = "Darwin" then
    .ok ([.info "Verifying system configuration..."] ++
      verify_docker_stack w ++ verify_tailscale_connectivity w ++
      [.info "\n--- Setup Complete ---"])
  else ⟨[], some ("Platform " ++ w.platform ++ " is not supported yet")⟩

/-- `provision_system`: raise on a platform outside Darwin and Linux,
else run the six phases in order, each one only when its predecessors
returned normally. -/
def provision_system (w : World) (dry_run user_only : Bool) : Res :=
  if w.platform = "Darwin" ∨ w.platform = "Linux" then
    (((((install_dependencies w dry_run user_only).seq
        (setup_tailscale w dry_run user_only)).seq
        (configure_services w dry_run user_only)).seq
        (configure_security w dry_run user_only)).seq
        (configure_system w dry_run user_only)).seq
        (verify_system w)
  else ⟨[], some ("Platform " ++ w.platform ++ " is not supported")⟩

-- ## provision/cli.py

/-- Outcome of the CLI entry point: the `typer.echo` lines, the events
of the provisioning run, and the process exit code. -/
structure CliResult where
  echoed : List String
  trace : Trace
  exitCode : Nat
  deriving DecidableEq, Repr

/-- `setup` (the CLI callback): exit 1 with guidance when root is
required but the effective user is not root; else run the workflow,
exiting 0 with the success banner on normal completion and 1 when a
phase raised. -/
def setup (w : World) (dry_run user_only : Bool) : CliResult :=
  if !user_only && !(is_root w) then
    ⟨["❗ System operations require root. Run with sudo or use --user-only"], [], 1⟩
  else
    let r := provision_system w dry_run user_only
    match r.err with
    | some _ => ⟨[], r.events, 1⟩
    | none => ⟨["✅ Provisioning complete!"], r.events, 0⟩

-- ## Concrete worlds used by individual claims

/-- A fully-provisioned world: every probe reports its resource already
in the desired state (the state each action's first real run leaves
behind). -/
def c2SatWorld : World := { W0 with
  existingCommands := ["brew", "tailscaled", "reattach-to-user-namespace"]
  tailscaleVersionOutput := some "other/third/v1.60.0-t1234567890a"
  latestReleaseTag := some "v1.60.0"
  daemonPlistExists := true
  tailscaledPath := some "/usr/local/bin/tailscaled"
  hardwarePorts := "Hardware Port: Wi-Fi\nDevice: en0\nHardware Port: Ethernet\nDevice: en1"
  getDnsOutput := fun _ => some "100.100.100.100\n8.8.8.8"
  sudoUser := some "alice"
  launchAgentsDirExists := true
  tmuxPath := some "/opt/homebrew/bin/tmux"
  tmuxPlistExists := true
  launchctlListOutput := some "12345 0 com.tmux.main"
  brewServicesListOutput := some "Name Status User\ncolima started alice"
  fdesetupStatus := some "FileVault is Off."
  remoteLoginStatus := some "Remote Login: Off"
  firewallGlobalState := some "Firewall is enabled. (State = 1)"
  firewallListApps := some "ALF: total number of apps = 5"
  sudoLaunchctlListOutput := some "- 0 com.apple.screensharing"
  pmsetOutput := some "System-wide power settings:\n sleep 0\n disksleep 0\n powernap 0" }

/-- A world whose firewall is already enabled and whose exception list
already contains every service the tool manages. -/
def c2FirewallWorld : World := { W0 with
  tailscaledPath := some "/usr/local/bin/tailscaled"
  firewallGlobalState := some "Firewall is enabled. (State = 1)"
  firewallListApps := some ("/usr/local/bin/tailscaled\n" ++
    "/System/Library/CoreServices/RemoteManagement/ARDAgent.app\n" ++
    "/System/Library/CoreServices/UniversalControl.app\n" ++
    "/usr/libexec/sharingd\n/usr/libexec/rapportd") }

/-- A world seen by a dry run launched directly as root: no `SUDO_USER`,
`USER` is `root`. -/
def c10RootWorld : World := { W0 with userEnv := some "root" }

/-- A world where `tailscaled` is on the path but `tailscale version`
prints something the version pattern does not match. -/
def c5UnparseableWorld : World := { W0 with
  existingCommands := ["tailscaled"]
  tailscaleVersionOutput := some "unparseable version banner" }

/-- A world where the installed version parses but the latest-release
lookup fails. -/
def c5NoLatestWorld : World := { W0 with
  existingCommands := ["tailscaled"]
  tailscaleVersionOutput := some "other/third/v1.58.2-t1234567890a"
  latestReleaseTag := none }

/-- A world with a Wi-Fi interface whose resolver list is the two Google
resolvers and no Tailscale sentinel. -/
def c6GoogleDnsWorld : World := { W0 with
  hardwarePorts := "Hardware Port: Wi-Fi\nDevice: en0"
  getDnsOutput := fun _ => some "8.8.8.8\n8.8.4.4" }

/-- A world whose resolver lists already carry the sentinel. -/
def c6SentinelWorld : World := { W0 with
  hardwarePorts := "Hardware Port: Wi-Fi\nDevice: en0\nHardware Port: Ethernet\nDevice: en1"
  getDnsOutput := fun _ => some "100.100.100.100\n8.8.8.8\n8.8.4.4" }

/-- A world running on an unsupported operating system. -/
def c8WindowsWorld : World := { W0 with platform := "Windows" }

/-- A world where the CLI runs as a non-root effective user. -/
def c9NonRootWorld : World := { W0 with euid := 501 }

-- ## General lemmas about traces

theorem traceReadOnly_nil : traceReadOnly [] = true := rfl

theorem traceReadOnly_cons (e : Event) (t : Trace) :
    traceReadOnly (e :: t) = (!(Event.isMutation e) && traceReadOnly t) := by
  simp [traceReadOnly]

theorem traceReadOnly_append (a b : Trace) :
    traceReadOnly (a ++ b) = (traceReadOnly a && traceReadOnly b) := by
  simp [traceReadOnly, List.all_append]

theorem traceReadOnly_tailscaleVersionProbe (w : World) :
    traceReadOnly (tailscaleVersionProbe w) = true := by
  unfold tailscaleVersionProbe
  split <;>
    simp [traceReadOnly_cons, traceReadOnly_nil, Event.isMutation, Cmd.mutating]

theorem traceReadOnly_dnsForInterface_dry (w : World) (iface : String) :
    traceReadOnly (dnsForInterface w true iface) = true := by
  unfold dnsForInterface
  split
  · rfl
  · split
    · rfl
    · split <;>
        simp [traceReadOnly_cons, traceReadOnly_nil, Event.isMutation, Cmd.mutating]

theorem traceReadOnly_pm_dry_notices (changes : List (String × String)) :
    traceReadOnly (pm_dry_notices changes) = true := by
  unfold pm_dry_notices
  split <;> split <;> split <;>
    simp [traceReadOnly_append, traceReadOnly_cons, traceReadOnly_nil, Event.isMutation]

-- ## Claims

/-- Claim C1 (dry-run purity): with `dry_run = true`, every one of the
twelve guarded actions emits only read-only probe commands and log
notices, in every probed world — no state-changing invocation occurs. -/
theorem c1_dry_run_purity (w : World) (brewfile_path : String) :
    traceReadOnly (install_homebrew w true) = true ∧
    traceReadOnly (install_brewfile_packages brewfile_path true) = true ∧
    traceReadOnly (install_tailscale w true) = true ∧
    traceReadOnly (install_tailscale_daemon w true).events = true ∧
    traceReadOnly (configure_tailscale_dns w true) = true ∧
    traceReadOnly (setup_tmux_service w true).events = true ∧
    traceReadOnly (setup_colima_service w true) = true ∧
    traceReadOnly (manage_filevault w true) = true ∧
    traceReadOnly (disable_ssh w true) = true ∧
    traceReadOnly (configure_firewall w true) = true ∧
    traceReadOnly (enable_screen_sharing w true) = true ∧
    traceReadOnly (configure_power_management w true) = true := by
  refine ⟨?_, ?_, ?_, ?_, ?_, ?_, ?_, ?_, ?_, ?_, ?_, ?_⟩
  · unfold install_homebrew
    split <;>
      simp [traceReadOnly_cons, traceReadOnly_nil, Event.isMutation, Cmd.mutating]
  · simp [install_brewfile_packages, traceReadOnly_cons, traceReadOnly_nil,
          Event.isMutation]
  · unfold install_tailscale
    split
    · split <;>
        simp [traceReadOnly_append, traceReadOnly_tailscaleVersionProbe,
              traceReadOnly_cons, traceReadOnly_nil, Event.isMutation]
    · simp [traceReadOnly_cons, traceReadOnly_nil, Event.isMutation]
  · unfold install_tailscale_daemon
    split <;>
      simp [Res.ok, traceReadOnly_cons, traceReadOnly_nil, Event.isMutation]
  · unfold configure_tailscale_dns
    simp [traceReadOnly_append, traceReadOnly_cons, traceReadOnly_nil,
          traceReadOnly_dnsForInterface_dry, Event.isMutation, Cmd.mutating]
  · simp [setup_tmux_service, Res.ok, traceReadOnly_cons, traceReadOnly_nil,
          Event.isMutation]
  · simp [setup_colima_service, traceReadOnly_cons, traceReadOnly_nil,
          Event.isMutation]
  · unfold manage_filevault
    split
    · simp [traceReadOnly_cons, traceReadOnly_nil, Event.isMutation, Cmd.mutating]
    · split <;>
        simp [traceReadOnly_cons, traceReadOnly_nil, Event.isMutation, Cmd.mutating]
  · unfold disable_ssh
    split
    · simp [traceReadOnly_cons, traceReadOnly_nil, Event.isMutation, Cmd.mutating]
    · split <;>
        simp [traceReadOnly_cons, traceReadOnly_nil, Event.isMutation, Cmd.mutating]
  · unfold configure_firewall
    split
    · simp [traceReadOnly_cons, traceReadOnly_nil, Event.isMutation, Cmd.mutating]
    · split <;>
        simp [traceReadOnly_cons, traceReadOnly_nil, Event.isMutation, Cmd.mutating]
  · unfold enable_screen_sharing
    split
    · simp [traceReadOnly_cons, traceReadOnly_nil, Event.isMutation, Cmd.mutating]
    · split <;>
        simp [traceReadOnly_cons, traceReadOnly_nil, Event.isMutation, Cmd.mutating]
  · unfold configure_power_management
    split
    · simp [traceReadOnly_cons, traceReadOnly_nil, Event.isMutation, Cmd.mutating]
    · split
      · dsimp only
        split <;>
          simp [traceReadOnly_cons, traceReadOnly_nil, traceReadOnly_pm_dry_notices,
                Event.isMutation, Cmd.mutating]
      · simp_all

theorem dns_satisfied_readOnly (w : World) (iface : String)
    (h : ((w.getDnsOutput iface).all fun out => strContains out TAILSCALE_DNS) = true) :
    traceReadOnly (dnsForInterface w false iface) = true := by
  unfold dnsForInterface
  split
  · rfl
  · cases hd : w.getDnsOutput iface with
    | none =>
      simp [traceReadOnly_cons, traceReadOnly_nil, Event.isMutation, Cmd.mutating]
    | some out =>
      rw [hd] at h
      simp only [Option.all_some] at h
      simp [h, traceReadOnly_cons, traceReadOnly_nil, Event.isMutation, Cmd.mutating]

/-- Claim C2 counterexample: `install_brewfile_packages` performs no
probe, so two successive real runs in an identical environment issue the
mutating `brew bundle` command twice (the claim allows at most one real
mutation); and a second run of `configure_firewall` in the fully
satisfied state its first run leaves behind still issues five mutating
`--unblockapp` commands instead of none. -/
theorem c2_idempotence_counterexample :
    mutationCount (install_brewfile_packages "/opt/provision/macos/Brewfile" false) +
      mutationCount (install_brewfile_packages "/opt/provision/macos/Brewfile" false) = 2 ∧
    mutationCount (configure_firewall c2FirewallWorld false) = 5 := by
  constructor <;> decide

/-- Claim C2 (amended): every probe-guarded action is idempotent at the
command level — in any world whose probe already reports the resource
satisfied (the state that action's first real run establishes), a real
run issues no mutating command.  This holds for all guarded actions
except `install_brewfile_packages` (which probes nothing and always runs
`brew bundle`, delegating idempotence to that tool) and
`configure_firewall` (which always re-issues `--unblockapp` for each
service). -/
theorem c2_idempotence_amended (w : World) :
    (check_homebrew w = true → traceReadOnly (install_homebrew w false) = true) ∧
    (check_tailscale w = true → is_tailscale_up_to_date w = true →
      traceReadOnly (install_tailscale w false) = true) ∧
    (w.daemonPlistExists = true →
      traceReadOnly (install_tailscale_daemon w false).events = true) ∧
    ((∀ iface, ((w.getDnsOutput iface).all fun out => strContains out TAILSCALE_DNS) = true) →
      traceReadOnly (configure_tailscale_dns w false) = true) ∧
    (w.launchAgentsDirExists = true → w.tmuxPlistExists = true →
      (w.launchctlListOutput.all fun listing => strContains listing "com.tmux.main") = true →
      traceReadOnly (setup_tmux_service w false).events = true) ∧
    ((w.tmuxEnv.getD "" = "" ∨ command_exists w "reattach-to-user-namespace" = true) →
      (w.brewServicesListOutput.elim false fun sl =>
        (splitLines sl.data).any colimaStartedLine) = true →
      traceReadOnly (setup_colima_service w false) = true) ∧
    ((w.fdesetupStatus.all fun s => !(strContains s "FileVault is On")) = true →
      traceReadOnly (manage_filevault w false) = true) ∧
    ((w.remoteLoginStatus.all fun s => !(strContains s "Remote Login: On")) = true →
      traceReadOnly (disable_ssh w false) = true) ∧
    ((w.sudoLaunchctlListOutput.all fun l => strContains l "com.apple.screensharing") = true →
      traceReadOnly (enable_screen_sharing w false) = true) ∧
    ((w.pmsetOutput.all fun out => (pm_changes_needed out).isEmpty) = true →
      traceReadOnly (configure_power_management w false) = true) := by
  refine ⟨?_, ?_, ?_, ?_, ?_, ?_, ?_, ?_, ?_, ?_⟩
  · intro h
    simp [install_homebrew, h, traceReadOnly_cons, traceReadOnly_nil, Event.isMutation]
  · intro h1 h2
    simp [install_tailscale, h1, h2, traceReadOnly_append,
          traceReadOnly_tailscaleVersionProbe, traceReadOnly_cons, traceReadOnly_nil,
          Event.isMutation]
  · intro h
    simp [install_tailscale_daemon, h, Res.ok, traceReadOnly_cons, traceReadOnly_nil,
          Event.isMutation]
  · intro h
    simp [configure_tailscale_dns, traceReadOnly_cons, traceReadOnly_append,
          Event.isMutation, Cmd.mutating, dns_satisfied_readOnly w _ (h _)]
  · intro hdir hplist hl
    simp only [setup_tmux_service]
    split
    · simp [Res.ok, traceReadOnly_cons, traceReadOnly_nil, Event.isMutation]
    · split
      · simp [Res.ok, traceReadOnly_cons, traceReadOnly_nil, Event.isMutation]
      · cases htm : w.tmuxPath with
        | none =>
          simp [htm, hdir, traceReadOnly_append, traceReadOnly_cons, traceReadOnly_nil,
                Event.isMutation, Cmd.mutating]
        | some tmux_path =>
          cases hlo : w.launchctlListOutput with
          | none =>
            rw [hlo] at hl
            simp [htm, hlo, hdir, hplist, traceReadOnly_append, traceReadOnly_cons,
                  traceReadOnly_nil, Event.isMutation, Cmd.mutating]
          | some listing =>
            rw [hlo] at hl
            simp only [Option.all_some] at hl
            simp [htm, hlo, hdir, hplist, hl, traceReadOnly_append, traceReadOnly_cons,
                  traceReadOnly_nil, Event.isMutation, Cmd.mutating]
  · intro hre hsl
    cases hb : w.brewServicesListOutput with
    | none => rw [hb] at hsl; simp [Option.elim] at hsl
    | some sl =>
      rw [hb] at hsl
      simp only [Option.elim] at hsl
      unfold setup_colima_service
      split
      · simp_all
      · dsimp only
        split
        · simp [traceReadOnly_cons, traceReadOnly_nil, Event.isMutation]
        · rcases hre with hre | hre <;>
            simp_all [traceReadOnly_append, traceReadOnly_cons, traceReadOnly_nil,
                      Event.isMutation, Cmd.mutating]
  · intro h
    cases hs : w.fdesetupStatus with
    | none =>
      simp [manage_filevault, hs, traceReadOnly_cons, traceReadOnly_nil,
            Event.isMutation, Cmd.mutating]
    | some s =>
      rw [hs] at h
      simp only [Option.all_some, Bool.not_eq_eq_eq_not, Bool.not_true] at h
      simp [manage_filevault, hs, h, traceReadOnly_cons, traceReadOnly_nil,
            Event.isMutation, Cmd.mutating]
  · intro h
    cases hs : w.remoteLoginStatus with
    | none =>
      simp [disable_ssh, hs, traceReadOnly_cons, traceReadOnly_nil,
            Event.isMutation, Cmd.mutating]
    | some s =>
      rw [hs] at h
      simp only [Option.all_some, Bool.not_eq_eq_eq_not, Bool.not_true] at h
      simp [disable_ssh, hs, h, traceReadOnly_cons, traceReadOnly_nil,
            Event.isMutation, Cmd.mutating]
  · intro h
    cases hs : w.sudoLaunchctlListOutput with
    | none =>
      simp [enable_screen_sharing, hs, traceReadOnly_cons, traceReadOnly_nil,
            Event.isMutation, Cmd.mutating]
    | some l =>
      rw [hs] at h
      simp only [Option.all_some] at h
      simp [enable_screen_sharing, hs, h, traceReadOnly_cons, traceReadOnly_nil,
            Event.isMutation, Cmd.mutating]
  · intro h
    cases hs : w.pmsetOutput with
    | none =>
      simp [configure_power_management, hs, traceReadOnly_cons, traceReadOnly_nil,
            Event.isMutation, Cmd.mutating]
    | some out =>
      rw [hs] at h
      simp only [Option.all_some] at h
      simp [configure_power_management, hs, h, traceReadOnly_cons, traceReadOnly_nil,
            Event.isMutation, Cmd.mutating]

/-- Closed instance of the amended C2 idempotence theorem at the fully
provisioned world. -/
theorem c2_idempotence_amended_witness :
    traceReadOnly (install_homebrew c2SatWorld false) = true ∧
    traceReadOnly (install_tailscale c2SatWorld false) = true ∧
    traceReadOnly (install_tailscale_daemon c2SatWorld false).events = true ∧
    traceReadOnly (configure_tailscale_dns c2SatWorld false) = true ∧
    traceReadOnly (setup_tmux_service c2SatWorld false).events = true ∧
    traceReadOnly (setup_colima_service c2SatWorld false) = true ∧
    traceReadOnly (manage_filevault c2SatWorld false) = true ∧
    traceReadOnly (disable_ssh c2SatWorld false) = true ∧
    traceReadOnly (enable_screen_sharing c2SatWorld false) = true ∧
    traceReadOnly (configure_power_management c2SatWorld false) = true := by
  obtain ⟨h1, h2, h3, h4, h5, h6, h7, h8, h9, h10⟩ := c2_idempotence_amended c2SatWorld
  exact ⟨h1 (by decide), h2 (by decide) (by decide), h3 (by decide),
         h4 (fun _ => rfl), h5 (by decide) (by decide) (by decide),
         h6 (Or.inl rfl) (by decide), h7 (by decide), h8 (by decide),
         h9 (by decide), h10 (by decide)⟩

/-- Claim C3 (user-only gating): on macOS with `user_only = true`, the
security-hardening and system-configuration phases each return
immediately with exactly one skip notice — no probe command, no preview
and none of their guarded actions — for dry and real runs alike. -/
theorem c3_user_only_gating (w : World) (dry_run : Bool)
    (h : w.platform = "Darwin") :
    configure_security w dry_run true =
      Res.ok [.info "Skipping security configuration in user-only mode (requires root)."] ∧
    configure_system w dry_run true =
      Res.ok [.info "Skipping system configuration in user-only mode (requires root)."] := by
  constructor <;> simp [configure_security, configure_system, h]

/-- Closed instance of the C3 gating theorem. -/
theorem c3_user_only_gating_witness :
    configure_security W0 false true =
      Res.ok [.info "Skipping security configuration in user-only mode (requires root)."] ∧
    configure_system W0 false true =
      Res.ok [.info "Skipping system configuration in user-only mode (requires root)."] :=
  c3_user_only_gating W0 false rfl

/-- Claim C4 (version comparison): `1.58.2` is extracted from the
daemon-version token `other/third/v1.58.2-t1234567890a`; tag `v1.60.0`
parses to `1.60.0`; the up-to-date check is false for 1.58.2 against
1.60.0, true for 1.60.0 against itself, and true when the latest version
cannot be determined. -/
theorem c4_version_comparison :
    get_installed_tailscale_version
      { W0 with tailscaleVersionOutput := some "other/third/v1.58.2-t1234567890a" }
      = some "1.58.2" ∧
    get_latest_tailscale_version { W0 with latestReleaseTag := some "v1.60.0" }
      = some "1.60.0" ∧
    is_tailscale_up_to_date
      { W0 with tailscaleVersionOutput := some "other/third/v1.58.2-t1234567890a",
                latestReleaseTag := some "v1.60.0" } = false ∧
    is_tailscale_up_to_date
      { W0 with tailscaleVersionOutput := some "other/third/v1.60.0-t1234567890a",
                latestReleaseTag := some "v1.60.0" } = true ∧
    is_tailscale_up_to_date
      { W0 with tailscaleVersionOutput := some "other/third/v1.58.2-t1234567890a",
                latestReleaseTag := none } = true :=
  ⟨by decide, by decide, by decide, by decide, by decide⟩

/-- Claim C5 (fail-open policy): when the installed version banner does
not parse, the up-to-date check reports false and the real run takes the
install/update path (the mutating `go install` is issued); when the
installed version parses but the latest release cannot be determined,
the check reports true and the real run performs no mutation. -/
theorem c5_fail_open_policy (w : World) :
    (check_tailscale w = true → get_installed_tailscale_version w = none →
      is_tailscale_up_to_date w = false ∧
      Event.run .goInstallTailscale ∈ install_tailscale w false) ∧
    (∀ v, get_installed_tailscale_version w = some v →
      get_latest_tailscale_version w = none →
      is_tailscale_up_to_date w = true ∧
      (check_tailscale w = true → traceReadOnly (install_tailscale w false) = true)) := by
  constructor
  · intro hc hv
    have hup : is_tailscale_up_to_date w = false := by
      unfold is_tailscale_up_to_date
      rw [hv]
    refine ⟨hup, ?_⟩
    simp [install_tailscale, hc, hup]
  · intro v hv hl
    have hup : is_tailscale_up_to_date w = true := by
      unfold is_tailscale_up_to_date
      rw [hv, hl]
    refine ⟨hup, fun hc => ?_⟩
    simp [install_tailscale, hc, hup, traceReadOnly_append,
          traceReadOnly_tailscaleVersionProbe, traceReadOnly_cons, traceReadOnly_nil,
          Event.isMutation]

/-- Closed instance of the C5 fail-open theorem: an unparseable local
banner forces the update path; a failed latest-release lookup leaves the
installation untouched. -/
theorem c5_fail_open_policy_witness :
    is_tailscale_up_to_date c5UnparseableWorld = false ∧
    Event.run .goInstallTailscale ∈ install_tailscale c5UnparseableWorld false ∧
    is_tailscale_up_to_date c5NoLatestWorld = true ∧
    traceReadOnly (install_tailscale c5NoLatestWorld false) = true := by
  obtain ⟨h1, _⟩ := c5_fail_open_policy c5UnparseableWorld
  obtain ⟨_, h2⟩ := c5_fail_open_policy c5NoLatestWorld
  obtain ⟨a, b⟩ := h1 (by decide) (by decide)
  obtain ⟨c, d⟩ := h2 "1.58.2" (by decide) (by decide)
  exact ⟨a, b, c, d (by decide)⟩

/-- Claim C6 (DNS prepend and idempotence): for any configured interface
whose resolver list reads `8.8.8.8` then `8.8.4.4` (no sentinel), the
written list is exactly the sentinel prepended to the two entries in
order; and whenever the sentinel occurs anywhere in the resolver output,
no mutating command is issued for that interface. -/
theorem c6_dns_prepend (w : World) (iface : String) :
    (strContains w.hardwarePorts ("Hardware Port: " ++ iface) = true →
      w.getDnsOutput iface = some "8.8.8.8\n8.8.4.4" →
      dnsForInterface w false iface =
        [.run (.networksetupGetDns iface), .run (.networksetupGetDns iface),
         .action ("Adding Tailscale DNS to " ++ iface ++ "..."),
         .run (.sudoNetworksetupSetDns iface ["100.100.100.100", "8.8.8.8", "8.8.4.4"])]) ∧
    (∀ out, w.getDnsOutput iface = some out → strContains out TAILSCALE_DNS = true →
      mutationCount (dnsForInterface w false iface) = 0) := by
  constructor
  · intro hp hd
    have hno : strContains "8.8.8.8\n8.8.4.4" TAILSCALE_DNS = false := by decide
    simp [dnsForInterface, hp, hd, hno]
    exact ⟨rfl, by decide⟩
  · intro out hd hs
    unfold dnsForInterface
    split
    · rfl
    · rw [hd]
      simp [hs, mutationCount, Event.isMutation, Cmd.mutating]

/-- Closed instance of the C6 DNS theorem at the two concrete worlds. -/
theorem c6_dns_prepend_witness :
    dnsForInterface c6GoogleDnsWorld false "Wi-Fi" =
      [.run (.networksetupGetDns "Wi-Fi"), .run (.networksetupGetDns "Wi-Fi"),
       .action "Adding Tailscale DNS to Wi-Fi...",
       .run (.sudoNetworksetupSetDns "Wi-Fi" ["100.100.100.100", "8.8.8.8", "8.8.4.4"])] ∧
    mutationCount (dnsForInterface c6SentinelWorld false "Ethernet") = 0 := by
  obtain ⟨h1, _⟩ := c6_dns_prepend c6GoogleDnsWorld "Wi-Fi"
  obtain ⟨_, h2⟩ := c6_dns_prepend c6SentinelWorld "Ethernet"
  exact ⟨h1 (by decide) rfl, h2 "100.100.100.100\n8.8.8.8\n8.8.4.4" rfl (by decide)⟩

/-- Claim C7 counterexample: with `dry_run = true`,
`install_brewfile_packages`, `setup_tmux_service` and
`setup_colima_service` each emit their preview notice as the only event
— no state probe runs before it (the brewfile preview trace contains no
external command invocation at all). -/
theorem c7_probe_counterexample :
    install_brewfile_packages "/opt/provision/macos/Brewfile" true =
      [.action "[DRY RUN] Would install packages from /opt/provision/macos/Brewfile"] ∧
    setup_tmux_service W0 true =
      Res.ok [.action "[DRY RUN] Would setup tmux service"] ∧
    setup_colima_service W0 true = [.action "[DRY RUN] Would setup Colima service"] ∧
    (install_brewfile_packages "/opt/provision/macos/Brewfile" true).any Event.isRun
      = false :=
  ⟨by decide, by decide, by decide, by decide⟩

/-- Claim C7 (amended): for the probe-guarded actions — Homebrew,
Tailscale client, Tailscale daemon, per-interface DNS, FileVault, SSH,
Screen Sharing, firewall and power management — the read-only probe is
still consulted under `dry_run = true` and its result alone determines
the emitted notice (already-satisfied versus would-install versus
would-update); `install_brewfile_packages`, `setup_tmux_service` and
`setup_colima_service` instead emit a fixed preview before any probe. -/
theorem c7_probe_drives_notice (w : World) (iface : String) :
    install_homebrew w true =
      (if check_homebrew w then [.info "Homebrew is already installed."]
       else [.action "[DRY RUN] Would install Homebrew"]) ∧
    install_tailscale w true =
      (if check_tailscale w then
        (if is_tailscale_up_to_date w then
          tailscaleVersionProbe w ++
            [.info "Tailscale is already installed and up to date."]
         else
          tailscaleVersionProbe w ++
            [.action "[DRY RUN] Would update Tailscale from source"])
       else [.action "[DRY RUN] Would install Tailscale from source"]) ∧
    install_tailscale_daemon w true =
      Res.ok (if w.daemonPlistExists then
                [.info "Tailscale system daemon is already installed."]
              else [.action "[DRY RUN] Would install Tailscale system daemon"]) ∧
    dnsForInterface w true iface =
      (if !(strContains w.hardwarePorts ("Hardware Port: " ++ iface)) then []
       else
        match w.getDnsOutput iface with
        | none => [.run (.networksetupGetDns iface)]
        | some current_dns =>
          if strContains current_dns TAILSCALE_DNS then
            [.run (.networksetupGetDns iface),
             .info ("Tailscale DNS already configured for " ++ iface ++ ".")]
          else
            [.run (.networksetupGetDns iface),
             .action ("[DRY RUN] Would configure Tailscale DNS for " ++ iface)]) ∧
    manage_filevault w true =
      (match w.fdesetupStatus with
       | none => [.run .sudoFdesetupStatus, .action "Failed to manage FileVault: error"]
       | some s =>
         if strContains s "FileVault is On" then
           [.run .sudoFdesetupStatus, .action "[DRY RUN] Would disable FileVault"]
         else [.run .sudoFdesetupStatus, .info "FileVault is already disabled."]) ∧
    disable_ssh w true =
      (match w.remoteLoginStatus with
       | none => [.run .sudoSystemsetupGetRemoteLogin, .action "Failed to disable SSH: error"]
       | some s =>
         if strContains s "Remote Login: On" then
           [.run .sudoSystemsetupGetRemoteLogin,
            .action "[DRY RUN] Would disable SSH (Remote Login)"]
         else [.run .sudoSystemsetupGetRemoteLogin,
               .info "Standard SSH (Remote Login) is already disabled."]) ∧
    configure_firewall w true =
      (match w.firewallGlobalState with
       | none => [.run .socketfilterGetGlobalState, .action "Failed to configure firewall: error"]
       | some st =>
         if strContains st "Firewall is disabled" || strContains st "disabled" then
           [.run .socketfilterGetGlobalState,
            .action "[DRY RUN] Would enable and configure firewall"]
         else [.run .socketfilterGetGlobalState, .info "Firewall is already enabled."]) ∧
    enable_screen_sharing w true =
      (match w.sudoLaunchctlListOutput with
       | none => [.run .sudoLaunchctlList, .action "Failed to enable Screen Sharing: error"]
       | some l =>
         if strContains l "com.apple.screensharing" then
           [.run .sudoLaunchctlList, .info "Screen Sharing service is already enabled."]
         else [.run .sudoLaunchctlList, .action "[DRY RUN] Would enable Screen Sharing service"]) ∧
    configure_power_management w true =
      (match w.pmsetOutput with
       | none => [.run .pmsetG, .action "Failed to configure power management: error"]
       | some out =>
         if (pm_changes_needed out).isEmpty then
           [.run .pmsetG, .info "Power settings are already configured to prevent sleep."]
         else .run .pmsetG :: pm_dry_notices (pm_changes_needed out)) := by
  refine ⟨?_, ?_, ?_, ?_, ?_, ?_, ?_, ?_, ?_⟩
  · unfold install_homebrew
    split <;> simp
  · unfold install_tailscale
    split
    · split <;> simp
    · simp
  · unfold install_tailscale_daemon
    split <;> simp [Res.ok]
  · unfold dnsForInterface
    split
    · simp_all
    · split
      · rfl
      · split <;> simp_all
  · unfold manage_filevault
    split <;> simp
  · unfold disable_ssh
    split <;> simp
  · unfold configure_firewall
    split <;> simp
  · unfold enable_screen_sharing
    split <;> simp
  · unfold configure_power_management
    split <;> simp

theorem runPhases_nil : runPhases [] = ⟨[], none⟩ := rfl

theorem runPhases_cons (a : Res) (rest : List Res) :
    runPhases (a :: rest) = a.seq (runPhases rest) := by
  rcases a with ⟨ev, err⟩
  cases err <;> rfl

theorem Res.seq_assoc (a b c : Res) : (a.seq b).seq c = a.seq (b.seq c) := by
  rcases a with ⟨ae, aerr⟩
  rcases b with ⟨be, berr⟩
  cases aerr <;> cases berr <;> simp [Res.seq, List.append_assoc]

theorem Res.seq_unit (a : Res) : a.seq ⟨[], none⟩ = a := by
  rcases a with ⟨ae, aerr⟩
  cases aerr <;> simp [Res.seq]

/-- Claim C8 (sequencer): on a platform other than Darwin or Linux,
`provision_system` fails with the unsupported-platform error before any
phase runs (its trace is empty); otherwise it is exactly the abort-at-
first-failure run of the six phases in the fixed order — dependencies,
Tailscale setup, service configuration, security configuration, system
configuration, verification — so a raising phase suppresses every later
phase. -/
theorem c8_sequencer (w : World) (dry_run user_only : Bool) :
    provision_system w dry_run user_only =
      if w.platform = "Darwin" ∨ w.platform = "Linux" then
        runPhases [install_dependencies w dry_run user_only,
                   setup_tailscale w dry_run user_only,
                   configure_services w dry_run user_only,
                   configure_security w dry_run user_only,
                   configure_system w dry_run user_only,
                   verify_system w]
      else ⟨[], some ("Platform " ++ w.platform ++ " is not supported")⟩ := by
  unfold provision_system
  split
  · simp [runPhases_cons, runPhases_nil, Res.seq_assoc, Res.seq_unit]
  · rfl

/-- Claim C9 (CLI exit codes): without `--user-only` and with a non-root
effective user, the CLI exits 1 with the guidance message before any
phase runs (empty trace); whenever root is not demanded (user-only or
effective root) and the workflow completes without raising — a dry run
included — the CLI exits 0 with the success banner. -/
theorem c9_cli_exit_codes (w : World) (dry_run : Bool) :
    (w.euid ≠ 0 →
      setup w dry_run false =
        ⟨["❗ System operations require root. Run with sudo or use --user-only"], [], 1⟩) ∧
    (∀ user_only, (user_only = true ∨ w.euid = 0) →
      (provision_system w dry_run user_only).err = none →
      (setup w dry_run user_only).exitCode = 0 ∧
      (setup w dry_run user_only).echoed = ["✅ Provisioning complete!"]) := by
  constructor
  · intro h
    simp [setup, is_root, h]
  · intro user_only hu herr
    unfold setup
    rcases hu with hu | hu
    · subst hu
      simp [herr]
    · have hr : is_root w = true := by simp [is_root, hu]
      cases user_only <;> simp [hr, herr]

/-- Closed instance of the C9 exit-code theorem: exit 1 for a non-root
user without user-only, exit 0 for a completed root dry run. -/
theorem c9_cli_exit_codes_witness :
    setup c9NonRootWorld true false =
      ⟨["❗ System operations require root. Run with sudo or use --user-only"], [], 1⟩ ∧
    (setup W0 true false).exitCode = 0 ∧
    (setup W0 true false).echoed = ["✅ Provisioning complete!"] := by
  obtain ⟨h1, _⟩ := c9_cli_exit_codes c9NonRootWorld true
  obtain ⟨_, h2⟩ := c9_cli_exit_codes W0 true
  obtain ⟨a, b⟩ := h2 false (Or.inr rfl) (by decide)
  exact ⟨h1 (by decide), a, b⟩

/-- Claim C10 (service user gate): when the resolved real user is empty
or `root`, a real run of the tmux and colima service setups returns
right after its skip notice with no mutation; but a dry run of each
emits its fixed preview before that user check, in every world. -/
theorem c10_service_user_gate (w : World) :
    ((get_real_user w = "" ∨ get_real_user w = "root") →
      setup_tmux_service w false =
        Res.ok [.info "Skipping tmux service for root user."] ∧
      setup_colima_service w false = [.info "Skipping Colima service for root user."]) ∧
    setup_tmux_service w true = Res.ok [.action "[DRY RUN] Would setup tmux service"] ∧
    setup_colima_service w true = [.action "[DRY RUN] Would setup Colima service"] := by
  refine ⟨?_, by simp [setup_tmux_service, Res.ok], by simp [setup_colima_service]⟩
  intro h
  rcases h with h | h <;>
    exact ⟨by simp [setup_tmux_service, Res.ok, h], by simp [setup_colima_service, h]⟩

/-- Closed instance of the C10 user-gate theorem in a root-only
environment (`USER=root`, no `SUDO_USER`). -/
theorem c10_service_user_gate_witness :
    setup_tmux_service c10RootWorld false =
      Res.ok [.info "Skipping tmux service for root user."] ∧
    setup_colima_service c10RootWorld false =
      [.info "Skipping Colima service for root user."] ∧
    setup_tmux_service c10RootWorld true =
      Res.ok [.action "[DRY RUN] Would setup tmux service"] ∧
    setup_colima_service c10RootWorld true =
      [.action "[DRY RUN] Would setup Colima service"] := by
  obtain ⟨h1, h2, h3⟩ := c10_service_user_gate c10RootWorld
  obtain ⟨a, b⟩ := h1 (Or.inr (by decide))
  exact ⟨a, b, h2, h3⟩
